import Mathlib

/-!
Shallow embedding of the aws-resource-optimizer finding engine.

Numeric values (metric samples, thresholds, dollar rates) are embedded as
exact rationals (`Rat`); Python lists become `List`, `None`-able values
become `Option`, and dictionaries of tag pairs become explicit structures.
Timestamps are reduced to the day counts the code actually computes from
them (`age_days`, `days_unattached`).  Free-text fields (descriptions,
recommendations), logging and the metadata maps do not affect any control
flow and are omitted from the `Finding` record.
-/

namespace AwsOpt

/-- A resource tag: one `{'Key': k, 'Value': v}` entry of the AWS tag list. -/
structure Tag where
  key : String
  value : String
deriving DecidableEq

/-- One entry of the `exclude_tags` configuration list: either a bare tag key
(string entry) or a dict of key/value pairs (dict entry), as consumed by
`BaseScanner.should_exclude_resource`. -/
inductive ExcludeTag where
  | key (k : String)
  | dict (pairs : List (String × String))
deriving DecidableEq

/-- `severity` values used by the scanners (`low`, `medium`, `high`). -/
inductive Severity where
  | low
  | medium
  | high
deriving DecidableEq

/-- Numeric rank of a severity, for stating order relations
(`low < medium < high`). -/
def Severity.rank : Severity → Nat
  | .low => 0
  | .medium => 1
  | .high => 2

/-- The `issue_type` strings produced by the three scanners. -/
inductive IssueType where
  | stopped_instance
  | low_cpu_utilization
  | low_connection_count
  | unattached_volume
  | low_volume_utilization
deriving DecidableEq

/-- The fields of the dictionary built by `BaseScanner.create_finding` that
carry decision content (identifier, type, issue, savings, severity). -/
structure Finding where
  resource_id : String
  resource_type : String
  issue_type : IssueType
  monthly_savings : Rat
  severity : Severity
deriving DecidableEq

/-- Arithmetic mean of a sample list, `sum(values) / len(values)`. -/
def listMean (xs : List Rat) : Rat :=
  xs.sum / (xs.length : Rat)

/-- Association-list lookup with a default, `d.get(k, default)`. -/
def lookupRate (m : List (String × Rat)) (k : String) (default : Rat) : Rat :=
  match m.find? (fun p => p.1 = k) with
  | some p => p.2
  | none => default

/-- The `ec2` entries of the static `cost_map` in
`BaseScanner.calculate_cost_savings`. -/
def ec2CostMap : List (String × Rat) :=
  [("t2.micro", 0.0116), ("t2.small", 0.023), ("t2.medium", 0.0464),
   ("t3.micro", 0.0104), ("t3.small", 0.0208), ("t3.medium", 0.0416),
   ("m5.large", 0.096), ("m5.xlarge", 0.192)]

/-- The `rds` entries of the static `cost_map` in
`BaseScanner.calculate_cost_savings`. -/
def rdsCostMap : List (String × Rat) :=
  [("db.t3.micro", 0.017), ("db.t3.small", 0.034), ("db.t3.medium", 0.068),
   ("db.m5.large", 0.192), ("db.m5.xlarge", 0.384)]

/-- `BaseScanner.calculate_cost_savings`: hourly rate from the static cost
map (missing resource type or instance type falls back to `0.05`) times the
hours per month (the callers always use the default `730`). -/
def calculate_cost_savings (resource_type instance_type : String)
    (hours_per_month : Rat) : Rat :=
  let kindMap : List (String × Rat) :=
    if resource_type = "ec2" then ec2CostMap
    else if resource_type = "rds" then rdsCostMap
    else []
  lookupRate kindMap instance_type 0.05 * hours_per_month

/-- Whether one tag matches one `exclude_tags` entry: a dict entry matches
when some pair has the tag's key and (stringified) value; a string entry
matches on key alone. -/
def tagMatches (t : Tag) (rule : ExcludeTag) : Bool :=
  match rule with
  | .key k => t.key = k
  | .dict pairs => pairs.any (fun p => t.key = p.1 && t.value = p.2)

/-- `BaseScanner.should_exclude_resource`: true when any tag on the resource
matches any configured exclusion entry. -/
def should_exclude_resource (exclude_tags : List ExcludeTag)
    (tags : List Tag) : Bool :=
  tags.any (fun t => exclude_tags.any (tagMatches t))

/-! ## EC2 scanner (compute) -/

/-- The configuration keys the EC2 scanner reads. -/
structure EC2Config where
  exclude_tags : List ExcludeTag
  exclude_instance_types : List String
  cpu_threshold : Rat
  days_to_check : Int
deriving DecidableEq

/-- The fields of an EC2 instance record that `EC2Scanner` reads. -/
structure EC2Instance where
  instanceId : String
  instanceType : String
  state : String
  tags : List Tag
deriving DecidableEq

/-- Severity rule of `EC2Scanner._check_cpu_utilization`:
`'high' if avg_cpu < 1 else 'medium'`. -/
def ec2_cpu_severity (avg_cpu : Rat) : Severity :=
  if avg_cpu < 1 then .high else .medium

/-- `EC2Scanner._create_stopped_instance_finding`. -/
def create_stopped_instance_finding (inst : EC2Instance) : Finding :=
  { resource_id := inst.instanceId
    resource_type := "EC2"
    issue_type := .stopped_instance
    monthly_savings := calculate_cost_savings "ec2" inst.instanceType 730
    severity := .medium }

/-- `EC2Scanner._check_cpu_utilization`, with the CloudWatch response passed
in as the sample list (`get_cloudwatch_metrics` reports failures as `[]`).
An empty list (`if cpu_values:` falsy) yields no finding. -/
def ec2_check_cpu_utilization (cfg : EC2Config) (inst : EC2Instance)
    (cpu_values : List Rat) : List Finding :=
  if cpu_values = [] then []
  else if listMean cpu_values < cfg.cpu_threshold then
    [{ resource_id := inst.instanceId
       resource_type := "EC2"
       issue_type := .low_cpu_utilization
       monthly_savings := calculate_cost_savings "ec2" inst.instanceType 730
       severity := ec2_cpu_severity (listMean cpu_values) }]
  else []

/-- `EC2Scanner._analyze_instance`: terminated instances are skipped first,
then tag exclusion, then the instance-type exclude list; stopped instances
get the stopped finding, running instances go to the CPU check. -/
def analyze_instance (cfg : EC2Config) (inst : EC2Instance)
    (cpu_values : List Rat) : List Finding :=
  if inst.state = "terminated" then []
  else if should_exclude_resource cfg.exclude_tags inst.tags then []
  else if inst.instanceType ∈ cfg.exclude_instance_types then []
  else if inst.state = "stopped" then [create_stopped_instance_finding inst]
  else if inst.state = "running" then ec2_check_cpu_utilization cfg inst cpu_values
  else []

/-! ## RDS scanner (database) -/

/-- The configuration dictionary handed to the RDS scanner.  The dictionary
may carry an `exclude_tags` entry (the shared `should_exclude_resource`
helper would read it), but `RDSScanner._analyze_db_instance` never invokes
the tag check, so the field is never consulted by the analysis below. -/
structure RDSConfig where
  exclude_tags : List ExcludeTag
  exclude_engines : List String
  cpu_threshold : Rat
  connection_threshold : Rat
  days_to_check : Int
  minimum_age_days : Int
deriving DecidableEq

/-- The fields of an RDS instance record the scanner reads.  `ageDays` is
the day count `(utcnow - InstanceCreateTime).days`; `none` models an absent
`InstanceCreateTime` (the `if creation_time:` guard, never falsy when
present).  The record's tag list is carried but never read by the RDS
analysis. -/
structure DBInstance where
  dbInstanceIdentifier : String
  dbInstanceClass : String
  dbInstanceStatus : String
  engine : String
  ageDays : Option Int
  tags : List Tag
deriving DecidableEq

/-- Severity rule of `RDSScanner._check_cpu_utilization`:
`'high' if avg_cpu < 2 else 'medium'`. -/
def rds_cpu_severity (avg_cpu : Rat) : Severity :=
  if avg_cpu < 2 then .high else .medium

/-- Severity rule of `RDSScanner._check_database_connections`:
`'high' if avg_connections < 1 else 'medium'`. -/
def rds_conn_severity (avg_connections : Rat) : Severity :=
  if avg_connections < 1 then .high else .medium

/-- `RDSScanner._check_cpu_utilization`, with the CloudWatch samples passed
in; an empty sample list yields no finding. -/
def rds_check_cpu_utilization (cfg : RDSConfig) (db : DBInstance)
    (cpu_values : List Rat) : List Finding :=
  if cpu_values = [] then []
  else if listMean cpu_values < cfg.cpu_threshold then
    [{ resource_id := db.dbInstanceIdentifier
       resource_type := "RDS"
       issue_type := .low_cpu_utilization
       monthly_savings := calculate_cost_savings "rds" db.dbInstanceClass 730
       severity := rds_cpu_severity (listMean cpu_values) }]
  else []

/-- `RDSScanner._check_database_connections`, with the CloudWatch samples
passed in; an empty sample list yields no finding. -/
def rds_check_database_connections (cfg : RDSConfig) (db : DBInstance)
    (connection_values : List Rat) : List Finding :=
  if connection_values = [] then []
  else if listMean connection_values < cfg.connection_threshold then
    [{ resource_id := db.dbInstanceIdentifier
       resource_type := "RDS"
       issue_type := .low_connection_count
       monthly_savings := calculate_cost_savings "rds" db.dbInstanceClass 730
       severity := rds_conn_severity (listMean connection_values) }]
  else []

/-- The minimum-age gate of `RDSScanner._analyze_db_instance`: when a
creation time is present (`if creation_time:`), the instance passes only if
its age in days is not below `minimum_age_days`; with no creation time the
gate is skipped and the instance always passes. -/
def age_gate_passes (min_age : Int) (ageDays : Option Int) : Bool :=
  match ageDays with
  | some age_days => decide (¬ age_days < min_age)
  | none => true

/-- `RDSScanner._analyze_db_instance`: non-available instances are skipped,
then the engine exclude list, then the minimum-age gate; surviving instances
run the CPU check followed by the connection check, concatenating the
findings. -/
def analyze_db_instance (cfg : RDSConfig) (db : DBInstance)
    (cpu_values connection_values : List Rat) : List Finding :=
  if db.dbInstanceStatus ≠ "available" then []
  else if db.engine ∈ cfg.exclude_engines then []
  else if age_gate_passes cfg.minimum_age_days db.ageDays then
    rds_check_cpu_utilization cfg db cpu_values ++
      rds_check_database_connections cfg db connection_values
  else []

/-! ## EBS scanner (storage) -/

/-- The configuration keys the EBS scanner reads. -/
structure EBSConfig where
  exclude_tags : List ExcludeTag
  include_volume_types : List String
  days_to_check : Int
  iops_threshold : Rat
deriving DecidableEq

/-- The fields of an EBS volume record the scanner reads.  `daysSinceCreate`
is the day count `(utcnow - CreateTime).days`; `none` models an absent
`CreateTime` (the code then keeps `days_unattached = 0`). -/
structure Volume where
  volumeId : String
  volumeType : String
  size : Nat
  state : String
  tags : List Tag
  daysSinceCreate : Option Int
deriving DecidableEq

/-- The static `pricing_per_gb` table in `EBSScanner._calculate_volume_cost`. -/
def pricing_per_gb : List (String × Rat) :=
  [("gp2", 0.10), ("gp3", 0.08), ("io1", 0.125), ("io2", 0.125),
   ("st1", 0.045), ("sc1", 0.025)]

/-- `EBSScanner._calculate_volume_cost`: size in GB times the per-GB-month
rate for the volume type (missing types fall back to `0.10`). -/
def calculate_volume_cost (volume_type : String) (size_gb : Nat) : Rat :=
  (size_gb : Rat) * lookupRate pricing_per_gb volume_type 0.10

/-- Severity rule of `EBSScanner._check_volume_utilization`:
`'medium' if daily_avg_ops == 0 else 'low'`. -/
def ebs_util_severity (daily_avg_ops : Rat) : Severity :=
  if daily_avg_ops = 0 then .medium else .low

/-- The `daily_avg_ops` computation of `EBSScanner._check_volume_utilization`:
read plus write operation totals (an empty fetch contributes `0`), divided by
`days_to_check` when that is positive, else `0`. -/
def daily_avg_ops (cfg : EBSConfig) (read_ops write_ops : List Rat) : Rat :=
  let total_read_ops := if read_ops = [] then 0 else read_ops.sum
  let total_write_ops := if write_ops = [] then 0 else write_ops.sum
  let total_ops := total_read_ops + total_write_ops
  if cfg.days_to_check > 0 then total_ops / (cfg.days_to_check : Rat) else 0

/-- `EBSScanner._check_volume_utilization`, with both CloudWatch responses
passed in.  The body runs only when at least one of the two fetches returned
samples (`if read_ops or write_ops:`); the emitted savings are half the full
monthly volume cost. -/
def ebs_check_volume_utilization (cfg : EBSConfig) (vol : Volume)
    (read_ops write_ops : List Rat) : List Finding :=
  if read_ops = [] ∧ write_ops = [] then []
  else if daily_avg_ops cfg read_ops write_ops < cfg.iops_threshold then
    [{ resource_id := vol.volumeId
       resource_type := "EBS"
       issue_type := .low_volume_utilization
       monthly_savings := calculate_volume_cost vol.volumeType vol.size * 0.5
       severity := ebs_util_severity (daily_avg_ops cfg read_ops write_ops) }]
  else []

/-- `EBSScanner._create_unattached_volume_finding`: severity high when
`days_unattached > 30` (0 when no creation time is recorded), savings the
full monthly volume cost. -/
def create_unattached_volume_finding (vol : Volume) : Finding :=
  let days_unattached := vol.daysSinceCreate.getD 0
  { resource_id := vol.volumeId
    resource_type := "EBS"
    issue_type := .unattached_volume
    monthly_savings := calculate_volume_cost vol.volumeType vol.size
    severity := if days_unattached > 30 then .high else .medium }

/-- `EBSScanner._analyze_volume`: tag exclusion first, then the volume-type
include list; `available` (unattached) volumes get the unattached finding,
`in-use` volumes go to the utilization check. -/
def analyze_volume (cfg : EBSConfig) (vol : Volume)
    (read_ops write_ops : List Rat) : List Finding :=
  if should_exclude_resource cfg.exclude_tags vol.tags then []
  else if vol.volumeType ∉ cfg.include_volume_types then []
  else if vol.state = "available" then [create_unattached_volume_finding vol]
  else if vol.state = "in-use" then
    ebs_check_volume_utilization cfg vol read_ops write_ops
  else []

/-! ## Configuration validation (`ConfigLoader._validate_thresholds`) -/

/-- The numeric configuration entries `ConfigLoader._validate_thresholds`
inspects, after the defaults merge of `_validate_config` (so every key is
present). -/
structure ThresholdConfig where
  ec2_cpu_threshold : Rat
  rds_cpu_threshold : Rat
  rds_connection_threshold : Rat
  ebs_iops_threshold : Rat
  ec2_days_to_check : Int
  rds_days_to_check : Int
  ebs_days_to_check : Int
deriving DecidableEq

/-- The per-section `days_to_check` adjustment in
`ConfigLoader._validate_thresholds`: above 90 becomes 90, below 1 becomes 1. -/
def clamp_days (days : Int) : Int :=
  if days > 90 then 90 else if days < 1 then 1 else days

/-- `ConfigLoader._validate_thresholds`: caps the EC2 and RDS CPU thresholds
at 100 and adjusts each section's `days_to_check`; the remaining entries are
left as loaded, and no value is ever rejected. -/
def validate_thresholds (cfg : ThresholdConfig) : ThresholdConfig :=
  { cfg with
    ec2_cpu_threshold :=
      if cfg.ec2_cpu_threshold > 100 then 100 else cfg.ec2_cpu_threshold
    rds_cpu_threshold :=
      if cfg.rds_cpu_threshold > 100 then 100 else cfg.rds_cpu_threshold
    ec2_days_to_check := clamp_days cfg.ec2_days_to_check
    rds_days_to_check := clamp_days cfg.rds_days_to_check
    ebs_days_to_check := clamp_days cfg.ebs_days_to_check }

/-! ## Report aggregation (`main`) -/

/-- The summary fields of the `report_data` dictionary assembled in `main`
(timestamp and configuration snapshot carry no decision content and are
omitted). -/
structure Report where
  total_findings : Nat
  total_potential_savings : Rat
  findings : List Finding
deriving DecidableEq

/-- The per-scanner savings accumulation in `main`:
`sum(f.get('monthly_savings', 0) for f in findings)` (the key is always
present on findings built by `create_finding`). -/
def scanner_savings (findings : List Finding) : Rat :=
  (findings.map Finding.monthly_savings).sum

/-- The aggregation loop of `main`: each scanner's findings extend
`all_findings` and its savings sum is added to `total_potential_savings`;
the report records the final length, total and finding list. -/
def build_report (kind_results : List (List Finding)) : Report :=
  let all_findings :=
    kind_results.foldl (fun acc findings => acc ++ findings) ([] : List Finding)
  let total_potential_savings :=
    kind_results.foldl (fun acc findings => acc + scanner_savings findings) (0 : Rat)
  { total_findings := all_findings.length
    total_potential_savings := total_potential_savings
    findings := all_findings }

/-! ## Helper lemmas -/

/-- Folding list append over kind results equals the accumulator followed by
the concatenation of all kind results. -/
theorem foldl_append_eq_join (ks : List (List Finding)) (acc : List Finding) :
    ks.foldl (fun a fs => a ++ fs) acc = acc ++ ks.join := by
  induction ks generalizing acc with
  | nil => simp
  | cons h t ih => simp [ih]

/-- Folding savings accumulation over kind results equals the accumulator
plus the sum of per-kind savings. -/
theorem foldl_savings_eq_sum (ks : List (List Finding)) (s : Rat) :
    ks.foldl (fun a fs => a + scanner_savings fs) s =
      s + (ks.map scanner_savings).sum := by
  induction ks generalizing s with
  | nil => simp
  | cons h t ih => simp [ih, add_assoc]

/-- Every finding emitted by the RDS CPU check is a `low_cpu_utilization`
finding. -/
theorem mem_rds_cpu_issue (cfg : RDSConfig) (db : DBInstance) (vs : List Rat)
    (f : Finding) (hf : f ∈ rds_check_cpu_utilization cfg db vs) :
    f.issue_type = IssueType.low_cpu_utilization := by
  unfold rds_check_cpu_utilization at hf
  split at hf
  · simp at hf
  · split at hf
    · simp at hf
      subst hf
      rfl
    · simp at hf

/-- Every finding emitted by the RDS connection check is a
`low_connection_count` finding. -/
theorem mem_rds_conn_issue (cfg : RDSConfig) (db : DBInstance) (vs : List Rat)
    (f : Finding) (hf : f ∈ rds_check_database_connections cfg db vs) :
    f.issue_type = IssueType.low_connection_count := by
  unfold rds_check_database_connections at hf
  split at hf
  · simp at hf
  · split at hf
    · simp at hf
      subst hf
      rfl
    · simp at hf

/-! ## Claim theorems -/

/-- C2: for every resource whose utilization-metric fetch returns an empty
sequence, no `low_cpu_utilization`, `low_connection_count` or
`low_volume_utilization` finding is emitted for that metric: the compute CPU
check, the database CPU check, the database connection check and the storage
operations check all return no findings on empty samples, and at the
analysis level an empty CPU fetch never produces a low-CPU finding and an
empty connection fetch never produces a low-connection finding. -/
theorem empty_metric_fetch_no_utilization_finding
    (ce : EC2Config) (inst : EC2Instance)
    (cr : RDSConfig) (db : DBInstance) (cpu_values connection_values : List Rat)
    (cb : EBSConfig) (vol : Volume) :
    ec2_check_cpu_utilization ce inst [] = [] ∧
    rds_check_cpu_utilization cr db [] = [] ∧
    rds_check_database_connections cr db [] = [] ∧
    ebs_check_volume_utilization cb vol [] [] = [] ∧
    (analyze_instance ce inst []).all
      (fun f => f.issue_type != IssueType.low_cpu_utilization) = true ∧
    (analyze_db_instance cr db [] connection_values).all
      (fun f => f.issue_type != IssueType.low_cpu_utilization) = true ∧
    (analyze_db_instance cr db cpu_values []).all
      (fun f => f.issue_type != IssueType.low_connection_count) = true ∧
    (analyze_volume cb vol [] []).all
      (fun f => f.issue_type != IssueType.low_volume_utilization) = true := by
  refine ⟨rfl, rfl, rfl, rfl, ?_, ?_, ?_, ?_⟩
  · unfold analyze_instance
    split
    · rfl
    split
    · rfl
    split
    · rfl
    split
    · rfl
    split
    · rfl
    · rfl
  · rw [List.all_eq_true]
    intro f hf
    unfold analyze_db_instance at hf
    split at hf
    · simp at hf
    split at hf
    · simp at hf
    split at hf
    · rw [List.mem_append] at hf
      rcases hf with hf | hf
      · exact absurd hf (by simp [rds_check_cpu_utilization])
      · have := mem_rds_conn_issue cr db connection_values f hf
        simp [this]
    · simp at hf
  · rw [List.all_eq_true]
    intro f hf
    unfold analyze_db_instance at hf
    split at hf
    · simp at hf
    split at hf
    · simp at hf
    split at hf
    · rw [List.mem_append] at hf
      rcases hf with hf | hf
      · have := mem_rds_cpu_issue cr db cpu_values f hf
        simp [this]
      · exact absurd hf (by simp [rds_check_database_connections])
    · simp at hf
  · unfold analyze_volume
    split
    · rfl
    split
    · rfl
    split
    · rfl
    split
    · rfl
    · rfl

/-- C3: for every report produced by the aggregation loop in `main`,
`total_findings` equals the length of the findings sequence and
`total_potential_savings` equals the sum of the per-finding
`monthly_savings` over the findings sequence. -/
theorem report_totals_recomputable (kind_results : List (List Finding)) :
    (build_report kind_results).total_findings =
      (build_report kind_results).findings.length ∧
    (build_report kind_results).total_potential_savings =
      ((build_report kind_results).findings.map Finding.monthly_savings).sum := by
  refine ⟨rfl, ?_⟩
  show kind_results.foldl (fun acc fs => acc + scanner_savings fs) 0 =
    ((kind_results.foldl (fun acc fs => acc ++ fs) []).map
      Finding.monthly_savings).sum
  have hfun : (List.sum ∘ List.map Finding.monthly_savings) = scanner_savings := by
    funext fs
    rfl
  rw [foldl_savings_eq_sum, foldl_append_eq_join]
  simp only [zero_add, List.nil_append, List.map_join, List.sum_join,
    List.map_map, hfun]

/-- C1 (amended): for compute and storage resources carrying a tag that
matches a configured exclusion rule (key-only or key+value), the kind's
analysis returns an empty finding sequence regardless of state and metric
values; the database analysis performs no tag-exclusion check, so exclusion
rules do not suppress database findings. -/
theorem excluded_tag_yields_no_findings
    (ce : EC2Config) (inst : EC2Instance) (cpu_values : List Rat)
    (cb : EBSConfig) (vol : Volume) (read_ops write_ops : List Rat)
    (hinst : should_exclude_resource ce.exclude_tags inst.tags = true)
    (hvol : should_exclude_resource cb.exclude_tags vol.tags = true) :
    analyze_instance ce inst cpu_values = [] ∧
    analyze_volume cb vol read_ops write_ops = [] := by
  constructor
  · simp [analyze_instance, hinst]
  · simp [analyze_volume, hvol]

/-- Witness for the amended C1 theorem: a tagged running compute instance
with live metrics and a tagged in-use storage volume both produce no
findings. -/
theorem excluded_tag_yields_no_findings_witness :
    analyze_instance
        { exclude_tags := [ExcludeTag.key "KeepRunning"],
          exclude_instance_types := [], cpu_threshold := 5, days_to_check := 14 }
        { instanceId := "i-9", instanceType := "t3.micro", state := "running",
          tags := [{ key := "KeepRunning", value := "yes" }] } [0.2] = [] ∧
    analyze_volume
        { exclude_tags := [ExcludeTag.dict [("Environment", "production")]],
          include_volume_types := ["gp2"], days_to_check := 7,
          iops_threshold := 1 }
        { volumeId := "vol-9", volumeType := "gp2", size := 8, state := "in-use",
          tags := [{ key := "Environment", value := "production" }],
          daysSinceCreate := some 10 } [0] [0] = [] :=
  excluded_tag_yields_no_findings _ _ _ _ _ _ _ (by decide) (by decide)

/-- C1 counterexample: a database resource that carries a tag matching a
configured key-only exclusion rule still yields findings, because the RDS
analysis never consults the exclusion rules. -/
theorem database_ignores_exclusion_tags
    : should_exclude_resource [ExcludeTag.key "DoNotOptimize"]
        [{ key := "DoNotOptimize", value := "true" }] = true ∧
      analyze_db_instance
        { exclude_tags := [ExcludeTag.key "DoNotOptimize"], exclude_engines := [],
          cpu_threshold := 10, connection_threshold := 5, days_to_check := 14,
          minimum_age_days := 7 }
        { dbInstanceIdentifier := "db-1", dbInstanceClass := "db.t3.micro",
          dbInstanceStatus := "available", engine := "mysql", ageDays := some 30,
          tags := [{ key := "DoNotOptimize", value := "true" }] }
        [0.5] [0.2] ≠ [] := by
  refine ⟨by decide, ?_⟩
  norm_num +decide [analyze_db_instance, age_gate_passes,
    rds_check_cpu_utilization, rds_check_database_connections,
    rds_cpu_severity, rds_conn_severity, listMean, calculate_cost_savings,
    lookupRate, rdsCostMap]

/-- C4: an available database, at least the configured minimum age, not
engine-excluded, with non-empty CPU samples averaging below the CPU
threshold and non-empty connection samples averaging below the connection
threshold, yields exactly a `low_cpu_utilization` finding (high when the
CPU mean is below 2, else medium) followed by a `low_connection_count`
finding (high when the connection mean is below 1, else medium). -/
theorem available_db_low_cpu_and_low_connections
    (cfg : RDSConfig) (db : DBInstance) (cpu_values connection_values : List Rat)
    (age : Int)
    (hstat : db.dbInstanceStatus = "available")
    (heng : db.engine ∉ cfg.exclude_engines)
    (hage : db.ageDays = some age)
    (hmin : cfg.minimum_age_days ≤ age)
    (hcpu_ne : cpu_values ≠ [])
    (hcpu : listMean cpu_values < cfg.cpu_threshold)
    (hconn_ne : connection_values ≠ [])
    (hconn : listMean connection_values < cfg.connection_threshold) :
    analyze_db_instance cfg db cpu_values connection_values =
      [{ resource_id := db.dbInstanceIdentifier, resource_type := "RDS",
         issue_type := IssueType.low_cpu_utilization,
         monthly_savings := calculate_cost_savings "rds" db.dbInstanceClass 730,
         severity :=
           if listMean cpu_values < 2 then Severity.high else Severity.medium },
       { resource_id := db.dbInstanceIdentifier, resource_type := "RDS",
         issue_type := IssueType.low_connection_count,
         monthly_savings := calculate_cost_savings "rds" db.dbInstanceClass 730,
         severity :=
           if listMean connection_values < 1 then Severity.high
           else Severity.medium }] := by
  have hgate : age_gate_passes cfg.minimum_age_days db.ageDays = true := by
    simp [age_gate_passes, hage]
    omega
  simp [analyze_db_instance, hstat, heng, hgate, rds_check_cpu_utilization,
    rds_check_database_connections, hcpu_ne, hcpu, hconn_ne, hconn,
    rds_cpu_severity, rds_conn_severity]

/-- Witness for C4: an available 10-day-old database with CPU mean 0.5 and
connection mean 0.2 yields exactly the two findings, both high severity,
each with savings 0.017 × 730 = 12.41. -/
theorem available_db_low_cpu_and_low_connections_witness :
    analyze_db_instance
        { exclude_tags := [], exclude_engines := [], cpu_threshold := 10,
          connection_threshold := 5, days_to_check := 14, minimum_age_days := 7 }
        { dbInstanceIdentifier := "db-2", dbInstanceClass := "db.t3.micro",
          dbInstanceStatus := "available", engine := "postgres",
          ageDays := some 10, tags := [] } [0.5] [0.2] =
      [{ resource_id := "db-2", resource_type := "RDS",
         issue_type := IssueType.low_cpu_utilization,
         monthly_savings := 12.41, severity := Severity.high },
       { resource_id := "db-2", resource_type := "RDS",
         issue_type := IssueType.low_connection_count,
         monthly_savings := 12.41, severity := Severity.high }] := by
  have h := available_db_low_cpu_and_low_connections
    { exclude_tags := [], exclude_engines := [], cpu_threshold := 10,
      connection_threshold := 5, days_to_check := 14, minimum_age_days := 7 }
    { dbInstanceIdentifier := "db-2", dbInstanceClass := "db.t3.micro",
      dbInstanceStatus := "available", engine := "postgres",
      ageDays := some 10, tags := [] } [0.5] [0.2] 10
    rfl (by decide) rfl (by decide) (by decide) (by norm_num [listMean])
    (by decide) (by norm_num [listMean])
  rw [h]
  norm_num +decide [listMean, calculate_cost_savings, lookupRate, rdsCostMap]

/-- C5: an unattached (state `available`) storage volume, not tag-excluded,
with its volume type in the include list and a recorded creation time,
yields exactly one `unattached_volume` finding; its severity is high when
the days since creation exceed 30 and medium otherwise, and its savings are
the volume size times the per-GB-month rate for its volume type. -/
theorem unattached_volume_single_finding
    (cfg : EBSConfig) (vol : Volume) (read_ops write_ops : List Rat) (days : Int)
    (hstate : vol.state = "available")
    (htags : should_exclude_resource cfg.exclude_tags vol.tags = false)
    (htype : vol.volumeType ∈ cfg.include_volume_types)
    (hdays : vol.daysSinceCreate = some days) :
    analyze_volume cfg vol read_ops write_ops =
      [{ resource_id := vol.volumeId, resource_type := "EBS",
         issue_type := IssueType.unattached_volume,
         monthly_savings :=
           (vol.size : Rat) * lookupRate pricing_per_gb vol.volumeType 0.10,
         severity := if days > 30 then Severity.high else Severity.medium }] := by
  simp [analyze_volume, hstate, htags, htype, create_unattached_volume_finding,
    calculate_volume_cost, hdays]

/-- Witness for C5: an unattached 100 GB gp2 volume created 45 days ago
yields one `unattached_volume` finding, severity high, savings
100 × 0.10 = 10. -/
theorem unattached_volume_single_finding_witness :
    analyze_volume
        { exclude_tags := [], include_volume_types := ["gp2", "gp3", "io1", "io2"],
          days_to_check := 7, iops_threshold := 1 }
        { volumeId := "vol-2", volumeType := "gp2", size := 100,
          state := "available", tags := [], daysSinceCreate := some 45 } [] [] =
      [{ resource_id := "vol-2", resource_type := "EBS",
         issue_type := IssueType.unattached_volume, monthly_savings := 10,
         severity := Severity.high }] := by
  have h := unattached_volume_single_finding
    { exclude_tags := [], include_volume_types := ["gp2", "gp3", "io1", "io2"],
      days_to_check := 7, iops_threshold := 1 }
    { volumeId := "vol-2", volumeType := "gp2", size := 100,
      state := "available", tags := [], daysSinceCreate := some 45 } [] [] 45
    rfl (by decide) (by decide) rfl
  rw [h]
  norm_num +decide [lookupRate, pricing_per_gb]

/-- A finding of the in-use analysis branch comes from the volume
utilization check. -/
theorem mem_analyze_volume_in_use
    (cfg : EBSConfig) (vol : Volume) (read_ops write_ops : List Rat)
    (f : Finding)
    (hstate : vol.state = "in-use")
    (hf : f ∈ analyze_volume cfg vol read_ops write_ops) :
    f ∈ ebs_check_volume_utilization cfg vol read_ops write_ops := by
  unfold analyze_volume at hf
  split at hf
  · simp at hf
  split at hf
  · simp at hf
  split at hf
  · rename_i hav
    rw [hstate] at hav
    exact absurd hav (by decide)
  · exact hf

/-- Every finding emitted by the volume utilization check is the low-
utilization finding with halved savings and the mean-daily-operations
severity. -/
theorem mem_ebs_check_eq (cfg : EBSConfig) (vol : Volume)
    (read_ops write_ops : List Rat) (f : Finding)
    (hf : f ∈ ebs_check_volume_utilization cfg vol read_ops write_ops) :
    f = { resource_id := vol.volumeId, resource_type := "EBS",
          issue_type := IssueType.low_volume_utilization,
          monthly_savings := calculate_volume_cost vol.volumeType vol.size * 0.5,
          severity := ebs_util_severity (daily_avg_ops cfg read_ops write_ops) } := by
  unfold ebs_check_volume_utilization at hf
  split at hf
  · simp at hf
  split at hf
  · simpa using hf
  · simp at hf

/-- C6: every finding emitted for an attached (`in-use`) storage volume by
the utilization check carries savings equal to half the volume's full
monthly cost (size × per-GB rate) and severity medium exactly when the
computed mean daily operations are 0, low otherwise. -/
theorem attached_volume_low_util_halved_savings
    (cfg : EBSConfig) (vol : Volume) (read_ops write_ops : List Rat)
    (f : Finding)
    (hstate : vol.state = "in-use")
    (hf : f ∈ analyze_volume cfg vol read_ops write_ops) :
    f.monthly_savings = calculate_volume_cost vol.volumeType vol.size * 0.5 ∧
    f.severity =
      (if daily_avg_ops cfg read_ops write_ops = 0 then Severity.medium
       else Severity.low) := by
  have hm := mem_analyze_volume_in_use cfg vol read_ops write_ops f hstate hf
  have he := mem_ebs_check_eq cfg vol read_ops write_ops f hm
  subst he
  exact ⟨rfl, rfl⟩

/-- Witness for C6: an in-use 80 GB gp2 volume with one zero read sample and
no write samples receives a finding with savings 80 × 0.10 × 0.5 = 4 and
severity medium (mean daily operations 0). -/
theorem attached_volume_low_util_halved_savings_witness :
    ({ resource_id := "vol-3", resource_type := "EBS",
       issue_type := IssueType.low_volume_utilization, monthly_savings := 4,
       severity := Severity.medium } : Finding).monthly_savings =
        calculate_volume_cost "gp2" 80 * 0.5 ∧
    ({ resource_id := "vol-3", resource_type := "EBS",
       issue_type := IssueType.low_volume_utilization, monthly_savings := 4,
       severity := Severity.medium } : Finding).severity =
      (if daily_avg_ops
          { exclude_tags := [], include_volume_types := ["gp2"],
            days_to_check := 7, iops_threshold := 1 } [0] [] = 0
       then Severity.medium else Severity.low) :=
  attached_volume_low_util_halved_savings
    { exclude_tags := [], include_volume_types := ["gp2"], days_to_check := 7,
      iops_threshold := 1 }
    { volumeId := "vol-3", volumeType := "gp2", size := 80, state := "in-use",
      tags := [], daysSinceCreate := none } [0] [] _ rfl
    (by norm_num +decide [analyze_volume, should_exclude_resource,
      ebs_check_volume_utilization, daily_avg_ops, ebs_util_severity,
      calculate_volume_cost, lookupRate, pricing_per_gb])

/-- C7: a stopped compute instance, not tag-excluded and whose instance type
is not in the exclude list, yields exactly one `stopped_instance` finding
with severity medium and savings equal to its hourly rate times 730; and a
terminated compute instance yields no finding at all. -/
theorem stopped_single_finding_terminated_none
    (cfg : EC2Config) (inst term : EC2Instance)
    (cpu_values term_cpu_values : List Rat)
    (hstate : inst.state = "stopped")
    (htags : should_exclude_resource cfg.exclude_tags inst.tags = false)
    (htype : inst.instanceType ∉ cfg.exclude_instance_types)
    (hterm : term.state = "terminated") :
    analyze_instance cfg inst cpu_values =
      [{ resource_id := inst.instanceId, resource_type := "EC2",
         issue_type := IssueType.stopped_instance,
         monthly_savings := lookupRate ec2CostMap inst.instanceType 0.05 * 730,
         severity := Severity.medium }] ∧
    analyze_instance cfg term term_cpu_values = [] := by
  constructor
  · simp +decide [analyze_instance, hstate, htags, htype,
      create_stopped_instance_finding, calculate_cost_savings]
  · simp [analyze_instance, hterm]

/-- Witness for C7: a stopped t3.small instance yields exactly one
`stopped_instance` finding with savings 0.0208 × 730 = 15.184, severity
medium; a terminated instance with live metrics yields nothing. -/
theorem stopped_single_finding_terminated_none_witness :
    analyze_instance
        { exclude_tags := [], exclude_instance_types := ["t2.nano"],
          cpu_threshold := 5, days_to_check := 14 }
        { instanceId := "i-2", instanceType := "t3.small", state := "stopped",
          tags := [] } [] =
      [{ resource_id := "i-2", resource_type := "EC2",
         issue_type := IssueType.stopped_instance,
         monthly_savings := 15.184, severity := Severity.medium }] ∧
    analyze_instance
        { exclude_tags := [], exclude_instance_types := ["t2.nano"],
          cpu_threshold := 5, days_to_check := 14 }
        { instanceId := "i-3", instanceType := "t3.small",
          state := "terminated", tags := [] } [3] = [] := by
  have h := stopped_single_finding_terminated_none
    { exclude_tags := [], exclude_instance_types := ["t2.nano"],
      cpu_threshold := 5, days_to_check := 14 }
    { instanceId := "i-2", instanceType := "t3.small", state := "stopped",
      tags := [] }
    { instanceId := "i-3", instanceType := "t3.small", state := "terminated",
      tags := [] } [] [3] rfl (by decide) (by decide) rfl
  refine ⟨?_, h.2⟩
  rw [h.1]
  norm_num +decide [lookupRate, ec2CostMap]

/-- C8: severity is monotone in the triggering statistic for all three
utilization severity rules: whenever `m1 ≤ m2` (both non-negative, as metric
statistics are), the severity assigned to the lower mean `m1` ranks at least
as high as the severity assigned to `m2`, for the compute CPU rule (high
below 1), the database CPU rule (high below 2) and the storage operations
rule (medium at 0, else low). -/
theorem severity_monotone_in_mean (m1 m2 : Rat)
    (h0 : 0 ≤ m1) (h12 : m1 ≤ m2) :
    (ec2_cpu_severity m2).rank ≤ (ec2_cpu_severity m1).rank ∧
    (rds_cpu_severity m2).rank ≤ (rds_cpu_severity m1).rank ∧
    (ebs_util_severity m2).rank ≤ (ebs_util_severity m1).rank := by
  refine ⟨?_, ?_, ?_⟩
  · unfold ec2_cpu_severity
    by_cases h2 : m2 < 1
    · have h1 : m1 < 1 := lt_of_le_of_lt h12 h2
      simp [h1, h2]
    · by_cases h1 : m1 < 1
      · simp [h1, h2, Severity.rank]
      · simp [h1, h2]
  · unfold rds_cpu_severity
    by_cases h2 : m2 < 2
    · have h1 : m1 < 2 := lt_of_le_of_lt h12 h2
      simp [h1, h2]
    · by_cases h1 : m1 < 2
      · simp [h1, h2, Severity.rank]
      · simp [h1, h2]
  · unfold ebs_util_severity
    by_cases h2 : m2 = 0
    · have h1 : m1 = 0 := le_antisymm (h12.trans (le_of_eq h2)) h0
      simp [h1, h2]
    · by_cases h1 : m1 = 0
      · simp [h1, h2, Severity.rank]
      · simp [h1, h2]

/-- Witness for C8 at means 0.5 and 4: the lower mean's severity ranks at
least as high under each rule. -/
theorem severity_monotone_in_mean_witness :
    (ec2_cpu_severity 4).rank ≤ (ec2_cpu_severity 0.5).rank ∧
    (rds_cpu_severity 4).rank ≤ (rds_cpu_severity 0.5).rank ∧
    (ebs_util_severity 4).rank ≤ (ebs_util_severity 0.5).rank :=
  severity_monotone_in_mean 0.5 4 (by norm_num) (by norm_num)

/-- The `days_to_check` adjustment always lands in the range 1..90. -/
theorem clamp_days_bounds (days : Int) :
    1 ≤ clamp_days days ∧ clamp_days days ≤ 90 := by
  unfold clamp_days
  split
  · omega
  split <;> omega

/-- C9 (amended): the loader clamps the compute and database CPU thresholds
to at most 100 and every section's `days_to_check` into the range 1..90,
and never rejects a configuration; the database connection threshold and
the storage IOPS threshold pass through unchanged (they are not clamped). -/
theorem validate_thresholds_clamps (cfg : ThresholdConfig) :
    (validate_thresholds cfg).ec2_cpu_threshold ≤ 100 ∧
    (validate_thresholds cfg).rds_cpu_threshold ≤ 100 ∧
    1 ≤ (validate_thresholds cfg).ec2_days_to_check ∧
    (validate_thresholds cfg).ec2_days_to_check ≤ 90 ∧
    1 ≤ (validate_thresholds cfg).rds_days_to_check ∧
    (validate_thresholds cfg).rds_days_to_check ≤ 90 ∧
    1 ≤ (validate_thresholds cfg).ebs_days_to_check ∧
    (validate_thresholds cfg).ebs_days_to_check ≤ 90 ∧
    (validate_thresholds cfg).rds_connection_threshold =
      cfg.rds_connection_threshold ∧
    (validate_thresholds cfg).ebs_iops_threshold = cfg.ebs_iops_threshold := by
  refine ⟨?_, ?_, (clamp_days_bounds cfg.ec2_days_to_check).1,
    (clamp_days_bounds cfg.ec2_days_to_check).2,
    (clamp_days_bounds cfg.rds_days_to_check).1,
    (clamp_days_bounds cfg.rds_days_to_check).2,
    (clamp_days_bounds cfg.ebs_days_to_check).1,
    (clamp_days_bounds cfg.ebs_days_to_check).2, rfl, rfl⟩
  · show (if cfg.ec2_cpu_threshold > 100 then 100 else cfg.ec2_cpu_threshold) ≤ 100
    split
    · norm_num
    · linarith
  · show (if cfg.rds_cpu_threshold > 100 then 100 else cfg.rds_cpu_threshold) ≤ 100
    split
    · norm_num
    · linarith

/-- C9 counterexample: a loaded configuration with a database connection
threshold of 500 (out of range by the claim's reading, since 500 > 100) is
left at 500 by the validator rather than being set to 100. -/
theorem connection_threshold_not_clamped :
    (validate_thresholds
        { ec2_cpu_threshold := 5, rds_cpu_threshold := 10,
          rds_connection_threshold := 500, ebs_iops_threshold := 1,
          ec2_days_to_check := 14, rds_days_to_check := 14,
          ebs_days_to_check := 7 }).rds_connection_threshold = 500 ∧
    ¬ ((500 : Rat) ≤ 100) := by
  constructor
  · rfl
  · norm_num

/-- C10: an available database with no recorded creation time skips the
minimum-age gate entirely: whatever `minimum_age_days` is configured, the
analysis proceeds to the CPU and connection checks. -/
theorem missing_creation_time_skips_age_gate
    (cfg : RDSConfig) (db : DBInstance) (cpu_values connection_values : List Rat)
    (hstat : db.dbInstanceStatus = "available")
    (heng : db.engine ∉ cfg.exclude_engines)
    (hage : db.ageDays = none) :
    analyze_db_instance cfg db cpu_values connection_values =
      rds_check_cpu_utilization cfg db cpu_values ++
        rds_check_database_connections cfg db connection_values := by
  simp [analyze_db_instance, hstat, heng, age_gate_passes, hage]

/-- Witness for C10: a brand-new database without a creation time, under a
10-year minimum age, still reaches both metric checks (and here produces
both findings). -/
theorem missing_creation_time_skips_age_gate_witness :
    analyze_db_instance
        { exclude_tags := [], exclude_engines := [], cpu_threshold := 10,
          connection_threshold := 5, days_to_check := 14,
          minimum_age_days := 3650 }
        { dbInstanceIdentifier := "db-3", dbInstanceClass := "db.t3.micro",
          dbInstanceStatus := "available", engine := "mysql", ageDays := none,
          tags := [] } [0.5] [0.2] =
      rds_check_cpu_utilization
        { exclude_tags := [], exclude_engines := [], cpu_threshold := 10,
          connection_threshold := 5, days_to_check := 14,
          minimum_age_days := 3650 }
        { dbInstanceIdentifier := "db-3", dbInstanceClass := "db.t3.micro",
          dbInstanceStatus := "available", engine := "mysql", ageDays := none,
          tags := [] } [0.5] ++
      rds_check_database_connections
        { exclude_tags := [], exclude_engines := [], cpu_threshold := 10,
          connection_threshold := 5, days_to_check := 14,
          minimum_age_days := 3650 }
        { dbInstanceIdentifier := "db-3", dbInstanceClass := "db.t3.micro",
          dbInstanceStatus := "available", engine := "mysql", ageDays := none,
          tags := [] } [0.2] :=
  missing_creation_time_skips_age_gate _ _ _ _ rfl (by decide) rfl

end AwsOpt
